import Mathlib

/-!
Shallow embedding of the `vectorial` crate (generic 2/3/4-component vectors
and axis-aligned rectangle types) for checking its specification.

The Rust source is generic over a scalar type `T` bounded per operation
(`PartialOrd`, `Ord`, `Add`, ...).  The embedding mirrors this: a lawful
Rust `PartialOrd` is modelled by a Lean `PartialOrder` together with
decidability of its strict/non-strict comparisons (Rust's `a > b` is
`partial_cmp(a, b) == Some(Greater)`, i.e. `b < a`); a Rust `Ord` is
modelled by a `LinearOrder`.  Rect fields `p0`/`p1` stand for the Rust
tuple fields `.0`/`.1` of `Rect2(pub Vector2<T>, pub Vector2<T>)`.
-/

namespace Vectorial

/-- 2-dimensional vector type (`Vector2<T>` in src/vec/mod.rs). -/
structure Vector2 (α : Type) where
  x : α
  y : α
deriving DecidableEq, Repr

/-- 3-dimensional vector type (`Vector3<T>` in src/vec/mod.rs). -/
structure Vector3 (α : Type) where
  x : α
  y : α
  z : α
deriving DecidableEq, Repr

/-- 4-dimensional vector type (`Vector4<T>` in src/vec/mod.rs). -/
structure Vector4 (α : Type) where
  x : α
  y : α
  z : α
  w : α
deriving DecidableEq, Repr

/-- 2-dimensional axis-aligned rectangle (`Rect2<T>` in src/rect/mod.rs),
a pair of opposite corner vectors. -/
structure Rect2 (α : Type) where
  p0 : Vector2 α
  p1 : Vector2 α
deriving DecidableEq, Repr

/-- 3-dimensional axis-aligned box (`Rect3<T>` in src/rect/mod.rs). -/
structure Rect3 (α : Type) where
  p0 : Vector3 α
  p1 : Vector3 α
deriving DecidableEq, Repr

variable {α : Type} {β : Type} {ε : Type}

/-- `Vector2::new` (src/vec/mod.rs). -/
def Vector2.new (x y : α) : Vector2 α := ⟨x, y⟩

/-- `Vector3::new` (src/vec/mod.rs). -/
def Vector3.new (x y z : α) : Vector3 α := ⟨x, y, z⟩

/-- `Vector4::new` (src/vec/mod.rs). -/
def Vector4.new (x y z w : α) : Vector4 α := ⟨x, y, z, w⟩

/-- `Rect2::new(x0, y0, x1, y1)` (src/rect/mod.rs `impl_all!`). -/
def Rect2.new (x0 y0 x1 y1 : α) : Rect2 α :=
  ⟨Vector2.new x0 y0, Vector2.new x1 y1⟩

/-- `Rect3::new(x0, y0, z0, x1, y1, z1)` (src/rect/mod.rs `impl_all!`). -/
def Rect3.new (x0 y0 z0 x1 y1 z1 : α) : Rect3 α :=
  ⟨Vector3.new x0 y0 z0, Vector3.new x1 y1 z1⟩

/-- Free function `partial_max` (src/rect/mod.rs):
`if a > b { a } else { b }`.  Rust's `a > b` for a lawful `PartialOrd`
holds exactly when `b < a`. -/
def partial_max [PartialOrder α] [DecidableRel ((· < ·) : α → α → Prop)]
    (a b : α) : α :=
  if b < a then a else b

/-- Free function `partial_min` (src/rect/mod.rs):
`if b < a { b } else { a }`. -/
def partial_min [PartialOrder α] [DecidableRel ((· < ·) : α → α → Prop)]
    (a b : α) : α :=
  if b < a then b else a

/-- Free function `sort` (src/rect/mod.rs):
`if a > b { (b, a) } else { (a, b) }`. -/
def sort [PartialOrder α] [DecidableRel ((· < ·) : α → α → Prop)]
    (a b : α) : α × α :=
  if b < a then (b, a) else (a, b)

/-- `Rect2::is_partially_positive` (src/rect/mod.rs):
`true && self.1.x > self.0.x && self.1.y > self.0.y`. -/
def Rect2.is_partially_positive [PartialOrder α]
    [DecidableRel ((· < ·) : α → α → Prop)] (r : Rect2 α) : Bool :=
  true && decide (r.p0.x < r.p1.x) && decide (r.p0.y < r.p1.y)

/-- `Rect3::is_partially_positive` (src/rect/mod.rs). -/
def Rect3.is_partially_positive [PartialOrder α]
    [DecidableRel ((· < ·) : α → α → Prop)] (r : Rect3 α) : Bool :=
  true && decide (r.p0.x < r.p1.x) && decide (r.p0.y < r.p1.y)
    && decide (r.p0.z < r.p1.z)

/-- `Rect2::is_partially_ordered` (src/rect/mod.rs):
`true && self.1.x >= self.0.x && self.1.y >= self.0.y`. -/
def Rect2.is_partially_ordered [PartialOrder α]
    [DecidableRel ((· ≤ ·) : α → α → Prop)] (r : Rect2 α) : Bool :=
  true && decide (r.p0.x ≤ r.p1.x) && decide (r.p0.y ≤ r.p1.y)

/-- `Rect3::is_partially_ordered` (src/rect/mod.rs). -/
def Rect3.is_partially_ordered [PartialOrder α]
    [DecidableRel ((· ≤ ·) : α → α → Prop)] (r : Rect3 α) : Bool :=
  true && decide (r.p0.x ≤ r.p1.x) && decide (r.p0.y ≤ r.p1.y)
    && decide (r.p0.z ≤ r.p1.z)

/-- `Rect2::is_ordered` (src/rect/mod.rs): requires `Ord`, delegates to
`is_partially_ordered`. -/
def Rect2.is_ordered [LinearOrder α] (r : Rect2 α) : Bool :=
  r.is_partially_ordered

/-- `Rect3::is_ordered` (src/rect/mod.rs). -/
def Rect3.is_ordered [LinearOrder α] (r : Rect3 α) : Bool :=
  r.is_partially_ordered

/-- `Rect2::is_positive` (src/rect/mod.rs): requires `Ord`, delegates to
`is_partially_positive`. -/
def Rect2.is_positive [LinearOrder α] (r : Rect2 α) : Bool :=
  r.is_partially_positive

/-- `Rect3::is_positive` (src/rect/mod.rs). -/
def Rect3.is_positive [LinearOrder α] (r : Rect3 α) : Bool :=
  r.is_partially_positive

/-- `Rect2::expand` (src/rect/mod.rs): returns `self` if either rect is not
partially positive, otherwise the rect of per-axis `partial_min` of the
`p0` corners and `partial_max` of the `p1` corners. -/
def Rect2.expand [PartialOrder α]
    [DecidableRel ((· < ·) : α → α → Prop)] (r s : Rect2 α) : Rect2 α :=
  if !r.is_partially_positive || !s.is_partially_positive then r
  else
    ⟨⟨partial_min r.p0.x s.p0.x, partial_min r.p0.y s.p0.y⟩,
     ⟨partial_max r.p1.x s.p1.x, partial_max r.p1.y s.p1.y⟩⟩

/-- `Rect3::expand` (src/rect/mod.rs). -/
def Rect3.expand [PartialOrder α]
    [DecidableRel ((· < ·) : α → α → Prop)] (r s : Rect3 α) : Rect3 α :=
  if !r.is_partially_positive || !s.is_partially_positive then r
  else
    ⟨⟨partial_min r.p0.x s.p0.x, partial_min r.p0.y s.p0.y,
      partial_min r.p0.z s.p0.z⟩,
     ⟨partial_max r.p1.x s.p1.x, partial_max r.p1.y s.p1.y,
      partial_max r.p1.z s.p1.z⟩⟩

/-- `Rect2::intersect` (src/rect/mod.rs): `None` unless both rects and the
computed intersection are partially positive. -/
def Rect2.intersect [PartialOrder α]
    [DecidableRel ((· < ·) : α → α → Prop)] (r s : Rect2 α) :
    Option (Rect2 α) :=
  if !r.is_partially_positive || !s.is_partially_positive then none
  else
    let i : Rect2 α :=
      ⟨⟨partial_max r.p0.x s.p0.x, partial_max r.p0.y s.p0.y⟩,
       ⟨partial_min r.p1.x s.p1.x, partial_min r.p1.y s.p1.y⟩⟩
    if i.is_partially_positive then some i else none

/-- `Rect3::intersect` (src/rect/mod.rs). -/
def Rect3.intersect [PartialOrder α]
    [DecidableRel ((· < ·) : α → α → Prop)] (r s : Rect3 α) :
    Option (Rect3 α) :=
  if !r.is_partially_positive || !s.is_partially_positive then none
  else
    let i : Rect3 α :=
      ⟨⟨partial_max r.p0.x s.p0.x, partial_max r.p0.y s.p0.y,
        partial_max r.p0.z s.p0.z⟩,
       ⟨partial_min r.p1.x s.p1.x, partial_min r.p1.y s.p1.y,
        partial_min r.p1.z s.p1.z⟩⟩
    if i.is_partially_positive then some i else none

/-- `Rect2::partially_ordered` (src/rect/mod.rs): sorts the corresponding
fields of `p0` and `p1` per axis with `sort`, and rebuilds the rect from
the first components and the second components respectively. -/
def Rect2.partially_ordered [PartialOrder α]
    [DecidableRel ((· < ·) : α → α → Prop)] (r : Rect2 α) : Rect2 α :=
  let x := sort r.p0.x r.p1.x
  let y := sort r.p0.y r.p1.y
  ⟨Vector2.new x.1 y.1, Vector2.new x.2 y.2⟩

/-- `Rect3::partially_ordered` (src/rect/mod.rs). -/
def Rect3.partially_ordered [PartialOrder α]
    [DecidableRel ((· < ·) : α → α → Prop)] (r : Rect3 α) : Rect3 α :=
  let x := sort r.p0.x r.p1.x
  let y := sort r.p0.y r.p1.y
  let z := sort r.p0.z r.p1.z
  ⟨Vector3.new x.1 y.1 z.1, Vector3.new x.2 y.2 z.2⟩

/-- `Rect2::ordered` (src/rect/mod.rs): requires `Ord`, delegates to
`partially_ordered`. -/
def Rect2.ordered [LinearOrder α] (r : Rect2 α) : Rect2 α :=
  r.partially_ordered

/-- `Rect3::ordered` (src/rect/mod.rs). -/
def Rect3.ordered [LinearOrder α] (r : Rect3 α) : Rect3 α :=
  r.partially_ordered

/-- One step of the accumulator loop inside `sum`/`product`
(src/vec/mod.rs `impl_all!`):
`a = match a { None => Some(field), Some(a) => Some(op(a, field)) }`. -/
def fold_step (op : α → α → α) (a : Option α) (v : α) : Option α :=
  match a with
  | none => some v
  | some a => some (op a v)

/-- `fold_step` never returns `none`, so the Rust `a.unwrap()` at the end of
`sum`/`product` cannot panic. -/
theorem fold_step_isSome (op : α → α → α) (a : Option α) (v : α) :
    (fold_step op a v).isSome = true := by
  cases a <;> rfl

/-- `Vector2::sum` (src/vec/mod.rs): the `Option` accumulator fold over the
fields in declaration order, then `unwrap`. -/
def Vector2.sum [Add α] (v : Vector2 α) : α :=
  (fold_step (· + ·) (fold_step (· + ·) none v.x) v.y).get
    (fold_step_isSome ..)

/-- `Vector3::sum` (src/vec/mod.rs). -/
def Vector3.sum [Add α] (v : Vector3 α) : α :=
  (fold_step (· + ·)
    (fold_step (· + ·) (fold_step (· + ·) none v.x) v.y) v.z).get
    (fold_step_isSome ..)

/-- `Vector4::sum` (src/vec/mod.rs). -/
def Vector4.sum [Add α] (v : Vector4 α) : α :=
  (fold_step (· + ·)
    (fold_step (· + ·)
      (fold_step (· + ·) (fold_step (· + ·) none v.x) v.y) v.z) v.w).get
    (fold_step_isSome ..)

/-- `Vector2::product` (src/vec/mod.rs). -/
def Vector2.product [Mul α] (v : Vector2 α) : α :=
  (fold_step (· * ·) (fold_step (· * ·) none v.x) v.y).get
    (fold_step_isSome ..)

/-- `Vector3::product` (src/vec/mod.rs). -/
def Vector3.product [Mul α] (v : Vector3 α) : α :=
  (fold_step (· * ·)
    (fold_step (· * ·) (fold_step (· * ·) none v.x) v.y) v.z).get
    (fold_step_isSome ..)

/-- `Vector4::product` (src/vec/mod.rs). -/
def Vector4.product [Mul α] (v : Vector4 α) : α :=
  (fold_step (· * ·)
    (fold_step (· * ·)
      (fold_step (· * ·) (fold_step (· * ·) none v.x) v.y) v.z) v.w).get
    (fold_step_isSome ..)

/-!
Checked (fallible) operations.  The macros `impl_try_binary_ops` and
`impl_try_unary_ops` (src/vec/ext_ops.rs) produce, for each scalar trait
`TryAdd`/`TrySub`/`TryMul`/`TryDiv` resp. `TryNeg`, the body
`Ok($vec { x: op(self.x, rhs.x)?, y: ... })`: the scalar operation is
applied field by field in declaration order `x, y, z, w`, and the `?`
operator returns the first error.  The embedding is generic over the
scalar-level fallible operation `f`/`g`, exactly as the macro is generic
over the trait being lifted; a scalar `Result<U, E>` is an `Except ε β`.
-/

/-- Body of `impl_try_binary_ops` for `Vector2`. -/
def Vector2.try_binary_op (f : α → α → Except ε β) (v w : Vector2 α) :
    Except ε (Vector2 β) :=
  match f v.x w.x with
  | .error e => .error e
  | .ok x =>
    match f v.y w.y with
    | .error e => .error e
    | .ok y => .ok ⟨x, y⟩

/-- Body of `impl_try_binary_ops` for `Vector3`. -/
def Vector3.try_binary_op (f : α → α → Except ε β) (v w : Vector3 α) :
    Except ε (Vector3 β) :=
  match f v.x w.x with
  | .error e => .error e
  | .ok x =>
    match f v.y w.y with
    | .error e => .error e
    | .ok y =>
      match f v.z w.z with
      | .error e => .error e
      | .ok z => .ok ⟨x, y, z⟩

/-- Body of `impl_try_binary_ops` for `Vector4`. -/
def Vector4.try_binary_op (f : α → α → Except ε β) (v w : Vector4 α) :
    Except ε (Vector4 β) :=
  match f v.x w.x with
  | .error e => .error e
  | .ok x =>
    match f v.y w.y with
    | .error e => .error e
    | .ok y =>
      match f v.z w.z with
      | .error e => .error e
      | .ok z =>
        match f v.w w.w with
        | .error e => .error e
        | .ok w => .ok ⟨x, y, z, w⟩

/-- Body of `impl_try_unary_ops` (`TryNeg::try_neg`) for `Vector2`. -/
def Vector2.try_unary_op (g : α → Except ε β) (v : Vector2 α) :
    Except ε (Vector2 β) :=
  match g v.x with
  | .error e => .error e
  | .ok x =>
    match g v.y with
    | .error e => .error e
    | .ok y => .ok ⟨x, y⟩

/-- Body of `impl_try_unary_ops` (`TryNeg::try_neg`) for `Vector3`. -/
def Vector3.try_unary_op (g : α → Except ε β) (v : Vector3 α) :
    Except ε (Vector3 β) :=
  match g v.x with
  | .error e => .error e
  | .ok x =>
    match g v.y with
    | .error e => .error e
    | .ok y =>
      match g v.z with
      | .error e => .error e
      | .ok z => .ok ⟨x, y, z⟩

/-- Body of `impl_try_unary_ops` (`TryNeg::try_neg`) for `Vector4`. -/
def Vector4.try_unary_op (g : α → Except ε β) (v : Vector4 α) :
    Except ε (Vector4 β) :=
  match g v.x with
  | .error e => .error e
  | .ok x =>
    match g v.y with
    | .error e => .error e
    | .ok y =>
      match g v.z with
      | .error e => .error e
      | .ok z =>
        match g v.w with
        | .error e => .error e
        | .ok w => .ok ⟨x, y, z, w⟩

/-!
Fallible conversions.  `Vector2/3/4::try_convert` (src/vec/mod.rs) is
`Ok($vec { x: self.x.try_into()?, ... })`, and `try_ref_convert` is the
same body reading through references, so both are the same function of the
scalar-level conversion.  `Rect2/3::try_convert` (src/rect/mod.rs) is
`Ok($rect(self.0.try_convert()?, self.1.try_convert()?))`.  The embedding
is generic over the scalar conversion `g : α → Except ε β` standing for
`T: TryInto<U>`.
-/

/-- `Vector2::try_convert`/`try_ref_convert` (src/vec/mod.rs). -/
def Vector2.try_convert (g : α → Except ε β) (v : Vector2 α) :
    Except ε (Vector2 β) :=
  match g v.x with
  | .error e => .error e
  | .ok x =>
    match g v.y with
    | .error e => .error e
    | .ok y => .ok ⟨x, y⟩

/-- `Vector3::try_convert`/`try_ref_convert` (src/vec/mod.rs). -/
def Vector3.try_convert (g : α → Except ε β) (v : Vector3 α) :
    Except ε (Vector3 β) :=
  match g v.x with
  | .error e => .error e
  | .ok x =>
    match g v.y with
    | .error e => .error e
    | .ok y =>
      match g v.z with
      | .error e => .error e
      | .ok z => .ok ⟨x, y, z⟩

/-- `Vector4::try_convert`/`try_ref_convert` (src/vec/mod.rs). -/
def Vector4.try_convert (g : α → Except ε β) (v : Vector4 α) :
    Except ε (Vector4 β) :=
  match g v.x with
  | .error e => .error e
  | .ok x =>
    match g v.y with
    | .error e => .error e
    | .ok y =>
      match g v.z with
      | .error e => .error e
      | .ok z =>
        match g v.w with
        | .error e => .error e
        | .ok w => .ok ⟨x, y, z, w⟩

/-- `Rect2::try_convert`/`try_ref_convert` (src/rect/mod.rs):
`Ok($rect(self.0.try_convert()?, self.1.try_convert()?))`. -/
def Rect2.try_convert (g : α → Except ε β) (r : Rect2 α) :
    Except ε (Rect2 β) :=
  match Vector2.try_convert g r.p0 with
  | .error e => .error e
  | .ok a =>
    match Vector2.try_convert g r.p1 with
    | .error e => .error e
    | .ok b => .ok ⟨a, b⟩

/-- `Rect3::try_convert`/`try_ref_convert` (src/rect/mod.rs). -/
def Rect3.try_convert (g : α → Except ε β) (r : Rect3 α) :
    Except ε (Rect3 β) :=
  match Vector3.try_convert g r.p0 with
  | .error e => .error e
  | .ok a =>
    match Vector3.try_convert g r.p1 with
    | .error e => .error e
    | .ok b => .ok ⟨a, b⟩

/-!
Size-only rect constructors.  `impl<T> From<($t1),*> for $rect<T>` and
`impl<T> From<$vec<T>> for $rect<T>` (src/rect/mod.rs) both require
`T: Default` and build `$rect($vec::default(), size)`.  The derived
`Default` of a vector is field-wise `T::default()`, and for every numeric
scalar type Rust's `T::default()` is the additive identity `0`; the
embedding therefore constrains the scalar by `Zero` and uses `0` where the
source uses `T::default()`. -/

/-- Derived `Vector2::default` (field-wise scalar default, which is the
numeric additive identity). -/
def Vector2.zero_default [Zero α] : Vector2 α := ⟨0, 0⟩

/-- Derived `Vector3::default`. -/
def Vector3.zero_default [Zero α] : Vector3 α := ⟨0, 0, 0⟩

/-- `From<Vector2<T>> for Rect2<T>` (src/rect/mod.rs):
`$rect($vec::default(), size)`. -/
def Rect2.from_size [Zero α] (size : Vector2 α) : Rect2 α :=
  ⟨Vector2.zero_default, size⟩

/-- `From<Vector3<T>> for Rect3<T>` (src/rect/mod.rs). -/
def Rect3.from_size [Zero α] (size : Vector3 α) : Rect3 α :=
  ⟨Vector3.zero_default, size⟩

/-- `From<(T, T)> for Rect2<T>` (src/rect/mod.rs), the flat size tuple:
`$rect($vec::default(), $vec::new(x1, y1))`. -/
def Rect2.from_size_tuple [Zero α] (x1 y1 : α) : Rect2 α :=
  ⟨Vector2.zero_default, Vector2.new x1 y1⟩

/-- `From<(T, T, T)> for Rect3<T>` (src/rect/mod.rs). -/
def Rect3.from_size_tuple [Zero α] (x1 y1 z1 : α) : Rect3 α :=
  ⟨Vector3.zero_default, Vector3.new x1 y1 z1⟩

/-!
Operator availability.  Which arithmetic operators the crate lifts to
vectors, and in which of the two operand forms, is fixed by the macro
invocation lists at the bottom of src/vec/mod.rs and src/vec/ext_ops.rs.
The model records those lists verbatim: `impl_scalar_ops!` generates the
scalar-broadcast impls (`$vec<T> op T`), `impl_binary_ops!` the field-wise
vector impls (`$vec<T> op $vec<T>`), and likewise for their `Try` variants.
-/

/-- An arithmetic operator the crate can lift to vectors. -/
inductive ScalarOp where
  | add
  | sub
  | mul
  | div
  | neg
deriving DecidableEq, Repr

/-- Operators given scalar-broadcast impls by `impl_scalar_ops!`
(src/vec/mod.rs lines 487-490): `Div::div` and `Mul::mul` only. -/
def vector_scalar_ops : List ScalarOp := [.div, .mul]

/-- Operators given field-wise vector impls by `impl_binary_ops!`
(src/vec/mod.rs lines 497-502): `Add`, `Div`, `Mul`, `Sub`. -/
def vector_binary_ops : List ScalarOp := [.add, .div, .mul, .sub]

/-- Checked operators given scalar-broadcast impls by
`impl_try_scalar_ops!` (src/vec/ext_ops.rs lines 295-298): `TryDiv` and
`TryMul` only. -/
def vector_try_scalar_ops : List ScalarOp := [.div, .mul]

/-- Checked operators given field-wise vector impls by
`impl_try_binary_ops!` (src/vec/ext_ops.rs lines 300-305). -/
def vector_try_binary_ops : List ScalarOp := [.add, .div, .mul, .sub]

/-- Operators given rect-scalar impls by `impl_scalar_ops!`
(src/rect/mod.rs lines 385-388): `Div` and `Mul` only. -/
def rect_scalar_ops : List ScalarOp := [.div, .mul]

/-- Operators given rect-vector impls by `impl_vec_ops!`
(src/rect/mod.rs lines 395-400). -/
def rect_vec_ops : List ScalarOp := [.add, .div, .mul, .sub]

/-!
A two-element partial order whose elements are incomparable, used to
exercise `partial_min`/`partial_max` on incomparable operands. -/

/-- Two incomparable elements. -/
inductive Two where
  | a
  | b
deriving DecidableEq, Repr

/-- The discrete order on `Two`: `x ≤ y` iff `x = y`, so `a` and `b` are
incomparable. -/
def Two.le (x y : Two) : Prop := x = y

instance : PartialOrder Two where
  le := Two.le
  le_refl _ := rfl
  le_trans _ _ _ h h' := Eq.trans h h'
  le_antisymm _ _ h _ := h

instance : DecidableRel ((· ≤ ·) : Two → Two → Prop) :=
  fun x y => decidable_of_iff (x = y) Iff.rfl

instance : DecidableRel ((· < ·) : Two → Two → Prop) :=
  fun x y => decidable_of_iff (x ≤ y ∧ ¬y ≤ x) Iff.rfl

/-- Rect-level containment, the specification's notion used to state that
`expand` yields the smallest rect containing both operands: `outer`
contains `inner` when, on each axis, `outer`'s low corner is at most
`inner`'s and `inner`'s high corner is at most `outer`'s. -/
def Rect2.contains [Preorder α] (outer inner : Rect2 α) : Prop :=
  outer.p0.x ≤ inner.p0.x ∧ outer.p0.y ≤ inner.p0.y ∧
  inner.p1.x ≤ outer.p1.x ∧ inner.p1.y ≤ outer.p1.y

/-- Rect-level containment for `Rect3`. -/
def Rect3.contains [Preorder α] (outer inner : Rect3 α) : Prop :=
  outer.p0.x ≤ inner.p0.x ∧ outer.p0.y ≤ inner.p0.y ∧
  outer.p0.z ≤ inner.p0.z ∧
  inner.p1.x ≤ outer.p1.x ∧ inner.p1.y ≤ outer.p1.y ∧
  inner.p1.z ≤ outer.p1.z

instance [Preorder α] [DecidableRel ((· ≤ ·) : α → α → Prop)]
    (r s : Rect2 α) : Decidable (Rect2.contains r s) := by
  unfold Rect2.contains; infer_instance

instance [Preorder α] [DecidableRel ((· ≤ ·) : α → α → Prop)]
    (r s : Rect3 α) : Decidable (Rect3.contains r s) := by
  unfold Rect3.contains; infer_instance

/-- The overlap rect the specification describes for `intersect`:
per-axis maximum of the `p0` corners and minimum of the `p1` corners. -/
def Rect2.overlap [LinearOrder α] (r s : Rect2 α) : Rect2 α :=
  ⟨⟨max r.p0.x s.p0.x, max r.p0.y s.p0.y⟩,
   ⟨min r.p1.x s.p1.x, min r.p1.y s.p1.y⟩⟩

/-- The overlap rect for `Rect3`. -/
def Rect3.overlap [LinearOrder α] (r s : Rect3 α) : Rect3 α :=
  ⟨⟨max r.p0.x s.p0.x, max r.p0.y s.p0.y, max r.p0.z s.p0.z⟩,
   ⟨min r.p1.x s.p1.x, min r.p1.y s.p1.y, min r.p1.z s.p1.z⟩⟩

/-!  Helper lemmas. -/

/-- Over a total order `partial_max` is `max`. -/
theorem partial_max_eq_max [LinearOrder α] (a b : α) :
    partial_max a b = max a b := by
  unfold partial_max
  rcases lt_or_ge b a with h | h
  · rw [if_pos h, max_eq_left h.le]
  · rw [if_neg (not_lt.mpr h), max_eq_right h]

/-- Over a total order `partial_min` is `min`. -/
theorem partial_min_eq_min [LinearOrder α] (a b : α) :
    partial_min a b = min a b := by
  unfold partial_min
  rcases lt_or_ge b a with h | h
  · rw [if_pos h, min_eq_right h.le]
  · rw [if_neg (not_lt.mpr h), min_eq_left h]

/-- Over a total order `sort` returns the pair `(min, max)`. -/
theorem sort_eq_min_max [LinearOrder α] (a b : α) :
    sort a b = (min a b, max a b) := by
  unfold sort
  rcases lt_or_ge b a with h | h
  · rw [if_pos h, min_eq_right h.le, max_eq_left h.le]
  · rw [if_neg (not_lt.mpr h), min_eq_left h, max_eq_right h]

theorem Rect2.is_partially_positive_iff [PartialOrder α]
    [DecidableRel ((· < ·) : α → α → Prop)] (r : Rect2 α) :
    r.is_partially_positive = true ↔ r.p0.x < r.p1.x ∧ r.p0.y < r.p1.y := by
  simp [Rect2.is_partially_positive, and_assoc]

theorem Rect3.is_partially_positive_iff3 [PartialOrder α]
    [DecidableRel ((· < ·) : α → α → Prop)] (r : Rect3 α) :
    r.is_partially_positive = true ↔
      r.p0.x < r.p1.x ∧ r.p0.y < r.p1.y ∧ r.p0.z < r.p1.z := by
  simp [Rect3.is_partially_positive, and_assoc]

theorem Rect2.is_partially_ordered_iff [PartialOrder α]
    [DecidableRel ((· ≤ ·) : α → α → Prop)] (r : Rect2 α) :
    r.is_partially_ordered = true ↔ r.p0.x ≤ r.p1.x ∧ r.p0.y ≤ r.p1.y := by
  simp [Rect2.is_partially_ordered, and_assoc]

theorem Rect3.is_partially_ordered_iff3 [PartialOrder α]
    [DecidableRel ((· ≤ ·) : α → α → Prop)] (r : Rect3 α) :
    r.is_partially_ordered = true ↔
      r.p0.x ≤ r.p1.x ∧ r.p0.y ≤ r.p1.y ∧ r.p0.z ≤ r.p1.z := by
  simp [Rect3.is_partially_ordered, and_assoc]

/-- When both operands are partially positive, `expand` computes the
per-axis `partial_min`/`partial_max` rect. -/
theorem Rect2.expand_of_pos [PartialOrder α]
    [DecidableRel ((· < ·) : α → α → Prop)] {r s : Rect2 α}
    (hr : r.is_partially_positive = true)
    (hs : s.is_partially_positive = true) :
    r.expand s =
      ⟨⟨partial_min r.p0.x s.p0.x, partial_min r.p0.y s.p0.y⟩,
       ⟨partial_max r.p1.x s.p1.x, partial_max r.p1.y s.p1.y⟩⟩ := by
  simp [Rect2.expand, hr, hs]

theorem Rect3.expand_of_pos3 [PartialOrder α]
    [DecidableRel ((· < ·) : α → α → Prop)] {r s : Rect3 α}
    (hr : r.is_partially_positive = true)
    (hs : s.is_partially_positive = true) :
    r.expand s =
      ⟨⟨partial_min r.p0.x s.p0.x, partial_min r.p0.y s.p0.y,
        partial_min r.p0.z s.p0.z⟩,
       ⟨partial_max r.p1.x s.p1.x, partial_max r.p1.y s.p1.y,
        partial_max r.p1.z s.p1.z⟩⟩ := by
  simp [Rect3.expand, hr, hs]

/-- Over a total order, `partially_ordered` sorts each axis pair to
`(min, max)` independently. -/
theorem Rect2.partially_ordered_eq [LinearOrder α] (r : Rect2 α) :
    r.partially_ordered =
      ⟨⟨min r.p0.x r.p1.x, min r.p0.y r.p1.y⟩,
       ⟨max r.p0.x r.p1.x, max r.p0.y r.p1.y⟩⟩ := by
  simp [Rect2.partially_ordered, sort_eq_min_max, Vector2.new]

theorem Rect3.partially_ordered_eq3 [LinearOrder α] (r : Rect3 α) :
    r.partially_ordered =
      ⟨⟨min r.p0.x r.p1.x, min r.p0.y r.p1.y, min r.p0.z r.p1.z⟩,
       ⟨max r.p0.x r.p1.x, max r.p0.y r.p1.y, max r.p0.z r.p1.z⟩⟩ := by
  simp [Rect3.partially_ordered, sort_eq_min_max, Vector3.new]

/-- C1: for rects (`Rect2` or `Rect3`), when both operands are strictly
positive `expand` returns the smallest rect containing both (it contains
each operand and is contained in every rect containing both); when either
operand fails the positivity check, `expand` returns its left operand
unchanged with no error signalled — the latter over any partially ordered
scalar, the smallest-rect characterisation over an ordered scalar, where
"smallest containing" is well defined. -/
theorem C1_expand_smallest {α : Type} [LinearOrder α] {γ : Type}
    [PartialOrder γ] [DecidableRel ((· < ·) : γ → γ → Prop)]
    (r s : Rect2 α) (u v : Rect3 α) (r' s' : Rect2 γ) (u' v' : Rect3 γ) :
    (r.is_partially_positive = true → s.is_partially_positive = true →
      (r.expand s).contains r ∧ (r.expand s).contains s ∧
      ∀ t : Rect2 α, t.contains r → t.contains s → t.contains (r.expand s)) ∧
    (u.is_partially_positive = true → v.is_partially_positive = true →
      (u.expand v).contains u ∧ (u.expand v).contains v ∧
      ∀ t : Rect3 α, t.contains u → t.contains v → t.contains (u.expand v)) ∧
    (¬(r'.is_partially_positive = true ∧ s'.is_partially_positive = true) →
      r'.expand s' = r') ∧
    (¬(u'.is_partially_positive = true ∧ v'.is_partially_positive = true) →
      u'.expand v' = u') := by
  refine ⟨fun hr hs => ?_, fun hu hv => ?_, fun h => ?_, fun h => ?_⟩
  · rw [Rect2.expand_of_pos hr hs]
    simp only [Rect2.contains, partial_min_eq_min, partial_max_eq_max]
    refine ⟨⟨min_le_left .., min_le_left .., le_max_left .., le_max_left ..⟩,
      ⟨min_le_right .., min_le_right .., le_max_right .., le_max_right ..⟩,
      fun t ht ht' => ?_⟩
    obtain ⟨h1, h2, h3, h4⟩ := ht
    obtain ⟨h5, h6, h7, h8⟩ := ht'
    exact ⟨le_min h1 h5, le_min h2 h6, max_le h3 h7, max_le h4 h8⟩
  · rw [Rect3.expand_of_pos3 hu hv]
    simp only [Rect3.contains, partial_min_eq_min, partial_max_eq_max]
    refine ⟨⟨min_le_left .., min_le_left .., min_le_left .., le_max_left ..,
        le_max_left .., le_max_left ..⟩,
      ⟨min_le_right .., min_le_right .., min_le_right .., le_max_right ..,
        le_max_right .., le_max_right ..⟩,
      fun t ht ht' => ?_⟩
    obtain ⟨h1, h2, h3, h4, h5, h6⟩ := ht
    obtain ⟨h7, h8, h9, h10, h11, h12⟩ := ht'
    exact ⟨le_min h1 h7, le_min h2 h8, le_min h3 h9, max_le h4 h10,
      max_le h5 h11, max_le h6 h12⟩
  · unfold Rect2.expand
    rcases hr' : r'.is_partially_positive <;>
      rcases hs' : s'.is_partially_positive <;> simp_all
  · unfold Rect3.expand
    rcases hu' : u'.is_partially_positive <;>
      rcases hv' : v'.is_partially_positive <;> simp_all

/-- C1 witness: a positive Rect2 pair where the expansion contains the left
operand, and a non-positive left operand returned unchanged. -/
theorem C1_expand_smallest_witness :
    (Rect2.new (0 : ℤ) 0 2 2 |>.expand (Rect2.new 1 1 3 3)).contains
      (Rect2.new (0 : ℤ) 0 2 2) ∧
    (Rect2.new (5 : ℤ) 5 0 0).expand (Rect2.new 1 1 3 3) =
      Rect2.new (5 : ℤ) 5 0 0 := by
  have h := C1_expand_smallest (Rect2.new (0 : ℤ) 0 2 2) (Rect2.new 1 1 3 3)
    (Rect3.new (0 : ℤ) 0 0 1 1 1) (Rect3.new 0 0 0 1 1 1)
    (Rect2.new (5 : ℤ) 5 0 0) (Rect2.new 1 1 3 3)
    (Rect3.new (0 : ℤ) 0 0 1 1 1) (Rect3.new 0 0 0 1 1 1)
  exact ⟨(h.1 (by decide) (by decide)).1, h.2.2.1 (by decide)⟩

/-- C2: `intersect` returns `Some` of the overlap rect (per-axis max of the
`p0` corners, min of the `p1` corners) exactly when both operands and that
overlap are strictly positive, and `none` otherwise; in particular the two
concrete examples from the specification hold: touching rects do not
intersect, and genuinely overlapping rects yield the overlap rect. -/
theorem C2_intersect_strict {α : Type} [LinearOrder α]
    (r s : Rect2 α) (u v : Rect3 α) :
    (r.intersect s =
      if r.is_partially_positive && s.is_partially_positive &&
          (r.overlap s).is_partially_positive
        then some (r.overlap s) else none) ∧
    (u.intersect v =
      if u.is_partially_positive && v.is_partially_positive &&
          (u.overlap v).is_partially_positive
        then some (u.overlap v) else none) ∧
    (Rect2.new (0 : ℤ) 0 100 100).intersect (Rect2.new 100 0 200 100) =
      none ∧
    (Rect2.new (0 : ℤ) 1 80 81).intersect (Rect2.new 20 21 100 101) =
      some (Rect2.new 20 21 80 81) := by
  refine ⟨?_, ?_, by decide, by decide⟩
  · rcases hr : r.is_partially_positive <;>
      rcases hs : s.is_partially_positive <;>
      simp_all [Rect2.intersect, Rect2.overlap,
        partial_max_eq_max, partial_min_eq_min]
  · rcases hu : u.is_partially_positive <;>
      rcases hv : v.is_partially_positive <;>
      simp_all [Rect3.intersect, Rect3.overlap,
        partial_max_eq_max, partial_min_eq_min]

/-- C4: `sum` and `product` fold the fields strictly left-to-right, so they
equal the explicit left-associated field expansions for dimensions 2, 3
and 4, over any scalar addition/multiplication closed on the type — no
associativity or commutativity is assumed. -/
theorem C4_sum_product_fold {α : Type} [Add α] [Mul α]
    (u : Vector2 α) (v : Vector3 α) (w : Vector4 α) :
    u.sum = u.x + u.y ∧
    v.sum = v.x + v.y + v.z ∧
    w.sum = w.x + w.y + w.z + w.w ∧
    u.product = u.x * u.y ∧
    v.product = v.x * v.y * v.z ∧
    w.product = w.x * w.y * w.z * w.w :=
  ⟨rfl, rfl, rfl, rfl, rfl, rfl⟩

/-- C5: over a totally ordered scalar, `partially_ordered` (and `ordered`,
which delegates to it) sorts each axis pair `(p0.axis, p1.axis)`
independently into `(min, max)` — not a bulk corner swap — and the
specification's concrete example holds. -/
theorem C5_ordered_per_axis {α : Type} [LinearOrder α]
    (r : Rect2 α) (u : Rect3 α) :
    r.partially_ordered =
      ⟨⟨min r.p0.x r.p1.x, min r.p0.y r.p1.y⟩,
       ⟨max r.p0.x r.p1.x, max r.p0.y r.p1.y⟩⟩ ∧
    r.ordered = r.partially_ordered ∧
    u.partially_ordered =
      ⟨⟨min u.p0.x u.p1.x, min u.p0.y u.p1.y, min u.p0.z u.p1.z⟩,
       ⟨max u.p0.x u.p1.x, max u.p0.y u.p1.y, max u.p0.z u.p1.z⟩⟩ ∧
    u.ordered = u.partially_ordered ∧
    (Rect2.new (2 : ℤ) 1 0 3).ordered = Rect2.new 0 1 2 3 ∧
    (Rect2.new (0 : ℤ) 1 2 3).is_ordered = true :=
  ⟨Rect2.partially_ordered_eq r, rfl, Rect3.partially_ordered_eq3 u, rfl,
    by decide, by decide⟩

/-- C6: on operands that are incomparable in the partial order,
`partial_max` (used for the high corners in `expand`) returns its second
operand and `partial_min` (used for the low corners) returns its first. -/
theorem C6_incomparable_tie_break {α : Type} [PartialOrder α]
    [DecidableRel ((· < ·) : α → α → Prop)] (a b : α)
    (_h1 : ¬a ≤ b) (h2 : ¬b ≤ a) :
    partial_max a b = b ∧ partial_min a b = a := by
  have hlt : ¬b < a := fun hl => h2 hl.le
  constructor
  · unfold partial_max; rw [if_neg hlt]
  · unfold partial_min; rw [if_neg hlt]

/-- C6 witness: the two elements of the discrete order `Two` are
incomparable, and the tie-breaks hold on them. -/
theorem C6_incomparable_tie_break_witness :
    partial_max Two.a Two.b = Two.b ∧ partial_min Two.a Two.b = Two.a :=
  C6_incomparable_tie_break Two.a Two.b (by decide) (by decide)

/-- C7 counterexample: the claim promises a scalar-broadcast form for every
arithmetic operator, addition and subtraction included, but the macro
invocations generating the vector-scalar impls list only `Div` and `Mul`
(in both the plain and the checked variants): there is no `v + k` or
`v - k` broadcast operator. -/
theorem C7_broadcast_counterexample :
    ScalarOp.add ∉ vector_scalar_ops ∧ ScalarOp.sub ∉ vector_scalar_ops ∧
    ScalarOp.add ∉ vector_try_scalar_ops ∧
    ScalarOp.sub ∉ vector_try_scalar_ops ∧
    ScalarOp.add ∉ rect_scalar_ops ∧ ScalarOp.sub ∉ rect_scalar_ops := by
  decide

/-- C7 (amended): both scalar-broadcast and field-wise vector forms exist
for multiplication and division (plain and checked); addition and
subtraction exist only in the field-wise vector form, with no
scalar-broadcast form. -/
theorem C7_operator_forms :
    ScalarOp.mul ∈ vector_scalar_ops ∧ ScalarOp.div ∈ vector_scalar_ops ∧
    ScalarOp.mul ∈ vector_try_scalar_ops ∧
    ScalarOp.div ∈ vector_try_scalar_ops ∧
    ScalarOp.add ∈ vector_binary_ops ∧ ScalarOp.sub ∈ vector_binary_ops ∧
    ScalarOp.mul ∈ vector_binary_ops ∧ ScalarOp.div ∈ vector_binary_ops ∧
    ScalarOp.add ∈ vector_try_binary_ops ∧
    ScalarOp.sub ∈ vector_try_binary_ops ∧
    ScalarOp.add ∈ rect_vec_ops ∧ ScalarOp.sub ∈ rect_vec_ops ∧
    ScalarOp.add ∉ vector_scalar_ops ∧ ScalarOp.sub ∉ vector_scalar_ops := by
  decide

/-- C9: constructing a rect from a size alone — a size vector or a flat
size tuple — places `p0` at the origin (every field the scalar's additive
identity) and makes `p1` the given size. -/
theorem C9_from_size_origin {α : Type} [Zero α]
    (s : Vector2 α) (t : Vector3 α) (x1 y1 z1 : α) :
    (Rect2.from_size s).p0.x = 0 ∧ (Rect2.from_size s).p0.y = 0 ∧
    (Rect2.from_size s).p1 = s ∧
    (Rect3.from_size t).p0.x = 0 ∧ (Rect3.from_size t).p0.y = 0 ∧
    (Rect3.from_size t).p0.z = 0 ∧ (Rect3.from_size t).p1 = t ∧
    (Rect2.from_size_tuple x1 y1).p0 = Vector2.new 0 0 ∧
    (Rect2.from_size_tuple x1 y1).p1 = Vector2.new x1 y1 ∧
    (Rect3.from_size_tuple x1 y1 z1).p0 = Vector3.new 0 0 0 ∧
    (Rect3.from_size_tuple x1 y1 z1).p1 = Vector3.new x1 y1 z1 :=
  ⟨rfl, rfl, rfl, rfl, rfl, rfl, rfl, rfl, rfl, rfl, rfl⟩

/-- C10: over a totally ordered scalar, the result of `ordered` always
satisfies `is_ordered` (each axis of `p1` is at least the corresponding
axis of `p0`), and `ordered` is idempotent. -/
theorem C10_ordered_canonical {α : Type} [LinearOrder α]
    (r : Rect2 α) (u : Rect3 α) :
    r.ordered.is_ordered = true ∧ r.ordered.ordered = r.ordered ∧
    u.ordered.is_ordered = true ∧ u.ordered.ordered = u.ordered := by
  refine ⟨?_, ?_, ?_, ?_⟩
  · rw [Rect2.ordered, Rect2.partially_ordered_eq r]
    simp [Rect2.is_ordered, Rect2.is_partially_ordered_iff, min_le_max]
  · rw [Rect2.ordered, Rect2.ordered, Rect2.partially_ordered_eq r,
      Rect2.partially_ordered_eq]
    simp [min_eq_left min_le_max, max_eq_right min_le_max]
  · rw [Rect3.ordered, Rect3.partially_ordered_eq3 u]
    simp [Rect3.is_ordered, Rect3.is_partially_ordered_iff3, min_le_max]
  · rw [Rect3.ordered, Rect3.ordered, Rect3.partially_ordered_eq3 u,
      Rect3.partially_ordered_eq3]
    simp [min_eq_left min_le_max, max_eq_right min_le_max]

/-- C3: every checked vector operation — the binary `try_add`, `try_sub`,
`try_mul`, `try_div` (all generated from the same macro body, embedded
generically in the scalar operation `f`) and the unary `try_neg`
(embedded in `g`) — evaluates the fields in `x, y, z, w` order, returns
the error of the first field whose scalar operation fails with no partial
result, and returns the field-wise result when no field fails, on
`Vector2`, `Vector3` and `Vector4`. -/
theorem C3_try_ops_first_error {α β ε : Type}
    (f : α → α → Except ε β) (g : α → Except ε β)
    (u u' : Vector2 α) (v v' : Vector3 α) (w w' : Vector4 α)
    (a b c d : β) (e : ε) :
    (f u.x u'.x = .error e →
      Vector2.try_binary_op f u u' = .error e) ∧
    (f u.x u'.x = .ok a → f u.y u'.y = .error e →
      Vector2.try_binary_op f u u' = .error e) ∧
    (f u.x u'.x = .ok a → f u.y u'.y = .ok b →
      Vector2.try_binary_op f u u' = .ok ⟨a, b⟩) ∧
    (f v.x v'.x = .error e →
      Vector3.try_binary_op f v v' = .error e) ∧
    (f v.x v'.x = .ok a → f v.y v'.y = .error e →
      Vector3.try_binary_op f v v' = .error e) ∧
    (f v.x v'.x = .ok a → f v.y v'.y = .ok b → f v.z v'.z = .error e →
      Vector3.try_binary_op f v v' = .error e) ∧
    (f v.x v'.x = .ok a → f v.y v'.y = .ok b → f v.z v'.z = .ok c →
      Vector3.try_binary_op f v v' = .ok ⟨a, b, c⟩) ∧
    (f w.x w'.x = .error e →
      Vector4.try_binary_op f w w' = .error e) ∧
    (f w.x w'.x = .ok a → f w.y w'.y = .error e →
      Vector4.try_binary_op f w w' = .error e) ∧
    (f w.x w'.x = .ok a → f w.y w'.y = .ok b → f w.z w'.z = .error e →
      Vector4.try_binary_op f w w' = .error e) ∧
    (f w.x w'.x = .ok a → f w.y w'.y = .ok b → f w.z w'.z = .ok c →
      f w.w w'.w = .error e →
      Vector4.try_binary_op f w w' = .error e) ∧
    (f w.x w'.x = .ok a → f w.y w'.y = .ok b → f w.z w'.z = .ok c →
      f w.w w'.w = .ok d →
      Vector4.try_binary_op f w w' = .ok ⟨a, b, c, d⟩) ∧
    (g u.x = .error e → Vector2.try_unary_op g u = .error e) ∧
    (g u.x = .ok a → g u.y = .error e →
      Vector2.try_unary_op g u = .error e) ∧
    (g u.x = .ok a → g u.y = .ok b →
      Vector2.try_unary_op g u = .ok ⟨a, b⟩) ∧
    (g v.x = .error e → Vector3.try_unary_op g v = .error e) ∧
    (g v.x = .ok a → g v.y = .error e →
      Vector3.try_unary_op g v = .error e) ∧
    (g v.x = .ok a → g v.y = .ok b → g v.z = .error e →
      Vector3.try_unary_op g v = .error e) ∧
    (g v.x = .ok a → g v.y = .ok b → g v.z = .ok c →
      Vector3.try_unary_op g v = .ok ⟨a, b, c⟩) ∧
    (g w.x = .error e → Vector4.try_unary_op g w = .error e) ∧
    (g w.x = .ok a → g w.y = .error e →
      Vector4.try_unary_op g w = .error e) ∧
    (g w.x = .ok a → g w.y = .ok b → g w.z = .error e →
      Vector4.try_unary_op g w = .error e) ∧
    (g w.x = .ok a → g w.y = .ok b → g w.z = .ok c → g w.w = .error e →
      Vector4.try_unary_op g w = .error e) ∧
    (g w.x = .ok a → g w.y = .ok b → g w.z = .ok c → g w.w = .ok d →
      Vector4.try_unary_op g w = .ok ⟨a, b, c, d⟩) := by
  repeat' apply And.intro
  all_goals intros
  all_goals
    simp_all [Vector2.try_binary_op, Vector3.try_binary_op,
      Vector4.try_binary_op, Vector2.try_unary_op, Vector3.try_unary_op,
      Vector4.try_unary_op]

/-- C3 witness: checked division by zero on `ℕ` fails on the first zero
divisor field (`y` here), and succeeds field-wise when no divisor is
zero. -/
theorem C3_try_ops_first_error_witness :
    Vector4.try_binary_op
      (fun m n : ℕ => if n = 0 then .error 7 else .ok (m / n))
      (Vector4.new 8 9 10 11) (Vector4.new 2 0 0 1) = .error 7 ∧
    Vector2.try_binary_op
      (fun m n : ℕ => if n = 0 then .error 7 else .ok (m / n))
      (Vector2.new 8 9) (Vector2.new 2 3) = .ok (Vector2.new 4 3) := by
  have h1 := C3_try_ops_first_error
    (fun m n : ℕ => if n = 0 then .error 7 else .ok (m / n))
    (fun n : ℕ => .ok n)
    (Vector2.new 8 9) (Vector2.new 2 3)
    (Vector3.new 0 0 0) (Vector3.new 1 1 1)
    (Vector4.new 8 9 10 11) (Vector4.new 2 0 0 1)
    4 3 0 0 7
  exact ⟨h1.2.2.2.2.2.2.2.2.1 rfl rfl, h1.2.2.1 rfl rfl⟩

/-- C8: `try_convert` (and `try_ref_convert`, the same body read through a
reference) on `Vector2/3/4` converts the fields in `x, y, z, w` order and
returns the error of the first field whose scalar conversion fails — never
a partial result, never an aggregate of several errors — and `Ok` of the
field-wise conversion when every field converts; on `Rect2/3` it converts
corner `p0` then corner `p1` the same way. -/
theorem C8_try_convert_first_error {α β ε : Type}
    (g : α → Except ε β)
    (u : Vector2 α) (v : Vector3 α) (w : Vector4 α)
    (r : Rect2 α) (q : Rect3 α)
    (a b c d : β) (A B : Vector2 β) (C D : Vector3 β) (e : ε) :
    (g u.x = .error e → Vector2.try_convert g u = .error e) ∧
    (g u.x = .ok a → g u.y = .error e →
      Vector2.try_convert g u = .error e) ∧
    (g u.x = .ok a → g u.y = .ok b →
      Vector2.try_convert g u = .ok ⟨a, b⟩) ∧
    (g v.x = .error e → Vector3.try_convert g v = .error e) ∧
    (g v.x = .ok a → g v.y = .error e →
      Vector3.try_convert g v = .error e) ∧
    (g v.x = .ok a → g v.y = .ok b → g v.z = .error e →
      Vector3.try_convert g v = .error e) ∧
    (g v.x = .ok a → g v.y = .ok b → g v.z = .ok c →
      Vector3.try_convert g v = .ok ⟨a, b, c⟩) ∧
    (g w.x = .error e → Vector4.try_convert g w = .error e) ∧
    (g w.x = .ok a → g w.y = .error e →
      Vector4.try_convert g w = .error e) ∧
    (g w.x = .ok a → g w.y = .ok b → g w.z = .error e →
      Vector4.try_convert g w = .error e) ∧
    (g w.x = .ok a → g w.y = .ok b → g w.z = .ok c → g w.w = .error e →
      Vector4.try_convert g w = .error e) ∧
    (g w.x = .ok a → g w.y = .ok b → g w.z = .ok c → g w.w = .ok d →
      Vector4.try_convert g w = .ok ⟨a, b, c, d⟩) ∧
    (Vector2.try_convert g r.p0 = .error e →
      Rect2.try_convert g r = .error e) ∧
    (Vector2.try_convert g r.p0 = .ok A →
      Vector2.try_convert g r.p1 = .error e →
      Rect2.try_convert g r = .error e) ∧
    (Vector2.try_convert g r.p0 = .ok A →
      Vector2.try_convert g r.p1 = .ok B →
      Rect2.try_convert g r = .ok ⟨A, B⟩) ∧
    (Vector3.try_convert g q.p0 = .error e →
      Rect3.try_convert g q = .error e) ∧
    (Vector3.try_convert g q.p0 = .ok C →
      Vector3.try_convert g q.p1 = .error e →
      Rect3.try_convert g q = .error e) ∧
    (Vector3.try_convert g q.p0 = .ok C →
      Vector3.try_convert g q.p1 = .ok D →
      Rect3.try_convert g q = .ok ⟨C, D⟩) := by
  repeat' apply And.intro
  all_goals intros
  all_goals
    simp_all [Vector2.try_convert, Vector3.try_convert, Vector4.try_convert,
      Rect2.try_convert, Rect3.try_convert]

/-- C8 witness: narrowing `ℤ` fields to `ℕ` fails on the first negative
field and reports which value failed; an all-representable rect converts
field-wise. -/
theorem C8_try_convert_first_error_witness :
    Vector3.try_convert
      (fun n : ℤ => if 0 ≤ n then .ok n.toNat else .error n)
      (Vector3.new 4 (-3) (-9)) = .error (-3) ∧
    Rect2.try_convert
      (fun n : ℤ => if 0 ≤ n then .ok n.toNat else .error n)
      (Rect2.new 1 2 3 4) = .ok (Rect2.new 1 2 3 4) := by
  have h1 := C8_try_convert_first_error
    (fun n : ℤ => if 0 ≤ n then .ok n.toNat else .error n)
    (Vector2.new 1 2) (Vector3.new 4 (-3) (-9)) (Vector4.new 0 0 0 0)
    (Rect2.new 1 2 3 4) (Rect3.new 0 0 0 1 1 1)
    4 0 0 0 (Vector2.new 1 2) (Vector2.new 3 4)
    (Vector3.new 0 0 0) (Vector3.new 1 1 1) (-3)
  exact ⟨h1.2.2.2.2.1 rfl rfl, h1.2.2.2.2.2.2.2.2.2.2.2.2.2.2.1 rfl rfl⟩

end Vectorial
